import Mathlib

/-!
Shallow embedding of the OBD dashboard core (src/dashboard.py, the variant
with the redraw-suppression threshold) together with the module-level OBD
read helper shared by both GUI variants.  Numbers are modelled as rationals;
the external query collaborator is modelled as an optional connection whose
query on a given command either raises, returns a null response, or returns
a value.
-/

namespace OBDDash

/-- Behaviour of the external query collaborator on one command:
the call raises an exception, returns a response with is_null true,
or returns a response carrying a numeric value. -/
inductive QueryBehavior where
  | raises : QueryBehavior
  | respNull : QueryBehavior
  | respValue : ℚ → QueryBehavior
deriving DecidableEq

/-- The module-level obd_connection global: None before a connection is
established, otherwise a mapping from commands to query outcomes. -/
abbrev Conn : Type := Option (String → QueryBehavior)

/-- Embedding of the module-level helper read_obd_data (dashboard.py lines
49-58): returns None when no connection exists, when the query raises
(the bare except clause), or when the response is null; otherwise returns
the response value. -/
def read_obd_data (conn : Conn) (command : String) : Option ℚ :=
  match conn with
  | none => none
  | some query =>
    match query command with
    | .raises => none
    | .respNull => none
    | .respValue v => some v

/-- Embedding of OBDDashboard.read (dashboard.py lines 486-498, the method
named with a leading underscore in the source): returns None in simulation
mode or when the command name is not in the loaded command table; otherwise
returns the queried value when the query succeeds and the per-call default
when it fails.  The magnitude extraction on quantity objects is the identity
on the numeric model. -/
def readValue (use_sim : Bool) (commands : String → Option String) (conn : Conn)
    (cmd : String) (default : ℚ) : Option ℚ :=
  if use_sim then none
  else
    match commands cmd with
    | none => none
    | some c =>
      match read_obd_data conn c with
      | some v => some v
      | none => some default

/-- Mutable state of a GaugeWidget relevant to value updates
(dashboard.py lines 64-76): bounds, current value, last drawn value. -/
structure GaugeState where
  min_val : ℚ
  max_val : ℚ
  value : ℚ
  last_drawn : Option ℚ
deriving DecidableEq

/-- The clamp max(min_val, min(max_val, val)) performed at the top of
GaugeWidget.set_value (dashboard.py line 82). -/
def clampValue (mn mx v : ℚ) : ℚ := max mn (min mx v)

/-- Embedding of GaugeWidget.set_value (dashboard.py lines 80-86); the
local new_val of the source is written out as clampValue applied to the
bounds.  The Bool records whether draw() was invoked: true exactly when the
last drawn value is unset or the clamped value differs from it by more than
0.5, in which case value and last_drawn are both set to the clamped
value. -/
def set_value (g : GaugeState) (val : ℚ) : GaugeState × Bool :=
  match g.last_drawn with
  | none =>
    ({ g with value := clampValue g.min_val g.max_val val
              last_drawn := some (clampValue g.min_val g.max_val val) }, true)
  | some last =>
    if 1/2 < |clampValue g.min_val g.max_val val - last| then
      ({ g with value := clampValue g.min_val g.max_val val
                last_drawn := some (clampValue g.min_val g.max_val val) }, true)
    else (g, false)

/-- The ratio computed in GaugeWidget.draw (dashboard.py line 105). -/
def drawRatio (mn mx v : ℚ) : ℚ := (v - mn) / (mx - mn)

/-- The extent of the active arc (dashboard.py line 106): extent = -270 * ratio,
negative meaning clockwise. -/
def activeSweepDeg (mn mx v : ℚ) : ℚ := -270 * drawRatio mn mx v

/-- The needle angle in degrees (dashboard.py line 158):
225 - 270 * ratio. -/
def needleAngleDeg (mn mx v : ℚ) : ℚ := 225 - 270 * drawRatio mn mx v

/-- Angle of tick i in degrees (dashboard.py line 140): 225 - 270 * i / 8. -/
def tickAngleDeg (i : ℕ) : ℚ := 225 - 270 * i / 8

/-- Raw label value of tick i (dashboard.py line 146):
min + (max - min) * i / 8. -/
def tickLabelValue (mn mx : ℚ) (i : ℕ) : ℚ := mn + (mx - mn) * i / 8

/-- Conversion applied by the Python builtin int() on a numeric value:
truncation toward zero. -/
def pyInt (q : ℚ) : ℤ := if 0 ≤ q then ⌊q⌋ else ⌈q⌉

/-- Embedding of the mark loop of GaugeWidget (dashboard.py lines 139-152,
the method drawing scale marks): the list of (angle, displayed label) pairs
for i = 0..8, the label being int(val). -/
def drawMarks (mn mx : ℚ) : List (ℚ × ℤ) :=
  (List.range 9).map (fun i => (tickAngleDeg i, pyInt (tickLabelValue mn mx i)))

/-- Fraction written to the MAF progress bar each tick
(dashboard.py line 562): (maf / mmaf) if mmaf > 0 else 0. -/
def mafBarFraction (maf mmaf : ℚ) : ℚ :=
  if 0 < mmaf then maf / mmaf else 0

/-- The three cumulative counters of OBDDashboard (dashboard.py lines
186-188): runtime, dist_dtc, time_dtc. -/
structure Accumulators where
  runtime : ℚ
  dist_dtc : ℚ
  time_dtc : ℚ
deriving DecidableEq

/-- Simulated-mode accumulator step of one _update tick (dashboard.py lines
544-545 and 565-567): runtime += 0.1, dist_dtc += uniform(0.01, 0.05)
modelled by the drawn increment du, time_dtc += 0.1. -/
def tickAccSim (a : Accumulators) (du : ℚ) : Accumulators :=
  { runtime := a.runtime + 1/10
    dist_dtc := a.dist_dtc + du
    time_dtc := a.time_dtc + 1/10 }

/-- Live-mode runtime step (dashboard.py lines 547-549): the queried
run-time rt overwrites runtime only when rt > 0. -/
def updateRuntimeLive (runtime rt : ℚ) : ℚ :=
  if 0 < rt then rt else runtime

/-- Live-mode distance step (dashboard.py lines 569-572): the guard
if d and d > 0 tests Python truthiness (d nonzero) and then d > 0. -/
def updateDistDtcLive (dist d : ℚ) : ℚ :=
  if d ≠ 0 ∧ 0 < d then d else dist

/-- Live-mode time step (dashboard.py lines 570-574): same guard shape
as the distance step. -/
def updateTimeDtcLive (tm t : ℚ) : ℚ :=
  if t ≠ 0 ∧ 0 < t then t else tm

/-- Live-mode accumulator step of one _update tick, given the three
numbers rt, d, t produced by the reads (each is the queried value on
success and the default 0 on a failed read). -/
def tickAccLive (a : Accumulators) (rt d t : ℚ) : Accumulators :=
  { runtime := updateRuntimeLive a.runtime rt
    dist_dtc := updateDistDtcLive a.dist_dtc d
    time_dtc := updateTimeDtcLive a.time_dtc t }

/-- Embedding of the clear-trouble-codes action (dashboard.py lines
467-484): when the user confirms, both branches set dist_dtc and time_dtc
to 0 and leave runtime untouched; in live mode the external clear query is
issued first and its result is discarded (read_obd_data swallows every
exception, so the resets always run). -/
def clear_dtc (confirmed : Bool) (use_sim : Bool)
    (commands : String → Option String) (conn : Conn)
    (a : Accumulators) : Accumulators :=
  if confirmed then
    if use_sim then
      { a with dist_dtc := 0, time_dtc := 0 }
    else
      match commands "clear_dtc" with
      | some c =>
        let _ := read_obd_data conn c
        { a with dist_dtc := 0, time_dtc := 0 }
      | none =>
        let _ := (none : Option ℚ)
        { a with dist_dtc := 0, time_dtc := 0 }
  else a

/-- The fifteen live metrics read in _update (dashboard.py lines 523-535
and 547 and 569-570). -/
inductive Metric where
  | speed | rpm | throttle | engLoad | timingAdvance
  | coolantTemp | intakeTemp | oilTemp | fuelPressure | fuelRate
  | maf | maxMaf | runTime | distSinceClear | timeSinceClear
deriving DecidableEq

/-- Command-table key used for each metric in _update. -/
def metricCmdName : Metric → String
  | .speed => "speed"
  | .rpm => "rpm"
  | .throttle => "throttle_pos"
  | .engLoad => "eng_load"
  | .timingAdvance => "timing_advance"
  | .coolantTemp => "coolant_temp"
  | .intakeTemp => "intake_temp"
  | .oilTemp => "oil_temp"
  | .fuelPressure => "fuel_pressure"
  | .fuelRate => "fuel_rate"
  | .maf => "maf"
  | .maxMaf => "max_maf"
  | .runTime => "run_time"
  | .distSinceClear => "dist_since_dtc_cleared"
  | .timeSinceClear => "time_since_dtc_cleared"

/-- Per-metric default passed to the read in _update. -/
def metricDefault : Metric → ℚ
  | .speed => 0
  | .rpm => 0
  | .throttle => 0
  | .engLoad => 0
  | .timingAdvance => 0
  | .coolantTemp => 80
  | .intakeTemp => 25
  | .oilTemp => 90
  | .fuelPressure => 300
  | .fuelRate => 5
  | .maf => 10
  | .maxMaf => 255
  | .runTime => 0
  | .distSinceClear => 0
  | .timeSinceClear => 0

/-- One live-mode metric read as issued by _update. -/
def liveMetricRead (commands : String → Option String) (conn : Conn)
    (m : Metric) : Option ℚ :=
  readValue false commands conn (metricCmdName m) (metricDefault m)

/-- Test fixture: a command table mapping every name to itself. -/
def cmdsAll : String → Option String := fun n => some n

end OBDDash

namespace OBDDash

/-- Helper: set_value on a gauge whose last drawn value is unset. -/
theorem set_value_unset (mn mx v0 val : ℚ) :
    set_value ⟨mn, mx, v0, none⟩ val =
      (⟨mn, mx, clampValue mn mx val, some (clampValue mn mx val)⟩, true) := rfl

/-- Helper: set_value when the clamped value is far from the last drawn
one. -/
theorem set_value_far (mn mx v0 l val : ℚ)
    (hc : 1/2 < |clampValue mn mx val - l|) :
    set_value ⟨mn, mx, v0, some l⟩ val =
      (⟨mn, mx, clampValue mn mx val, some (clampValue mn mx val)⟩, true) := by
  simp only [set_value]
  rw [if_pos hc]

/-- Helper: set_value when the clamped value is within the threshold of the
last drawn one. -/
theorem set_value_near (mn mx v0 l val : ℚ)
    (hc : ¬ 1/2 < |clampValue mn mx val - l|) :
    set_value ⟨mn, mx, v0, some l⟩ val = (⟨mn, mx, v0, some l⟩, false) := by
  simp only [set_value]
  rw [if_neg hc]

/-- Helper: the clamped value lies between the gauge bounds. -/
theorem clampValue_mem (mn mx v : ℚ) (h : mn ≤ mx) :
    mn ≤ clampValue mn mx v ∧ clampValue mn mx v ≤ mx := by
  constructor
  · exact le_max_left _ _
  · exact max_le h (min_le_left _ _)

/-- Helper: the draw ratio of a value inside the bounds lies in [0, 1]. -/
theorem drawRatio_mem (mn mx v : ℚ) (hlt : mn < mx) (h0 : mn ≤ v) (h1 : v ≤ mx) :
    0 ≤ drawRatio mn mx v ∧ drawRatio mn mx v ≤ 1 := by
  have hpos : (0:ℚ) < mx - mn := sub_pos.mpr hlt
  constructor
  · exact div_nonneg (sub_nonneg.mpr h0) hpos.le
  · rw [drawRatio, div_le_one hpos]
    linarith

/-- C1: for a gauge with min_val < max_val and any raw value in
[min_val - 100, max_val + 100], set_value clamps the value into
[min_val, max_val] before the draw (whenever the draw fires, the stored
value is the clamped one), and the geometry computed from the clamped
value keeps the active sweep magnitude at most 270 degrees and the needle
angle inside [225 - 270, 225]. -/
theorem gauge_clamp_keeps_arc_bounds (g : GaugeState) (raw : ℚ)
    (hlt : g.min_val < g.max_val)
    (hlo : g.min_val - 100 ≤ raw) (hhi : raw ≤ g.max_val + 100) :
    ((set_value g raw).2 = true →
      (set_value g raw).1.value = clampValue g.min_val g.max_val raw) ∧
    g.min_val ≤ clampValue g.min_val g.max_val raw ∧
    clampValue g.min_val g.max_val raw ≤ g.max_val ∧
    |activeSweepDeg g.min_val g.max_val (clampValue g.min_val g.max_val raw)| ≤ 270 ∧
    225 - 270 ≤ needleAngleDeg g.min_val g.max_val (clampValue g.min_val g.max_val raw) ∧
    needleAngleDeg g.min_val g.max_val (clampValue g.min_val g.max_val raw) ≤ 225 := by
  obtain ⟨mn, mx, v0, ld⟩ := g
  simp only at hlt hlo hhi ⊢
  obtain ⟨hm0, hm1⟩ := clampValue_mem mn mx raw hlt.le
  obtain ⟨hr0, hr1⟩ := drawRatio_mem mn mx (clampValue mn mx raw) hlt hm0 hm1
  refine ⟨?_, hm0, hm1, ?_, ?_, ?_⟩
  · intro hdraw
    cases ld with
    | none => rw [set_value_unset]
    | some l =>
      by_cases hc : 1/2 < |clampValue mn mx raw - l|
      · rw [set_value_far mn mx v0 l raw hc]
      · rw [set_value_near mn mx v0 l raw hc] at hdraw
        simp at hdraw
  · rw [activeSweepDeg, abs_mul]
    have h270 : |(-270:ℚ)| = 270 := by norm_num
    rw [h270, abs_of_nonneg hr0]
    nlinarith
  · rw [needleAngleDeg]
    nlinarith
  · rw [needleAngleDeg]
    nlinarith

/-- Witness for C1 at the speed gauge spec (0, 200) and the out-of-range
raw value 250: the clamped value is within bounds and the sweep magnitude
stays at most 270. -/
theorem gauge_clamp_keeps_arc_bounds_witness :
    ((0:ℚ) < 200 ∧ (0:ℚ) - 100 ≤ 250 ∧ (250:ℚ) ≤ 200 + 100) ∧
    |activeSweepDeg 0 200 (clampValue 0 200 250)| ≤ 270 :=
  ⟨⟨by norm_num, by norm_num, by norm_num⟩,
    (gauge_clamp_keeps_arc_bounds ⟨0, 200, 0, none⟩ 250
      (by norm_num) (by norm_num) (by norm_num)).2.2.2.1⟩

/-- C2: set_value triggers the draw exactly when the last drawn value is
unset or the clamped value differs from it by strictly more than 0.5, and
is a no-op on the state otherwise; a repeated call with the same argument
never draws again (so two calls with the same value draw at most once, and
exactly once when the first call draws); on the gauge (0, 100) with last
drawn value 50, set_value 50.3 draws nothing and set_value 50.6 draws. -/
theorem set_value_redraw_policy (g : GaugeState) (v : ℚ) :
    ((set_value g v).2 = true ↔
      g.last_drawn = none ∨
        ∃ l, g.last_drawn = some l ∧ 1/2 < |clampValue g.min_val g.max_val v - l|) ∧
    ((set_value g v).2 = false → (set_value g v).1 = g) ∧
    (set_value (set_value g v).1 v).2 = false ∧
    (set_value ⟨0, 100, 50, some 50⟩ (503/10)).2 = false ∧
    (set_value ⟨0, 100, 50, some 50⟩ (506/10)).2 = true := by
  obtain ⟨mn, mx, v0, ld⟩ := g
  refine ⟨?_, ?_, ?_, ?_, ?_⟩
  · cases ld with
    | none => rw [set_value_unset]; simp
    | some l =>
      by_cases hc : 1/2 < |clampValue mn mx v - l|
      · rw [set_value_far mn mx v0 l v hc]
        simp only [Prod.snd]
        constructor
        · intro _
          exact Or.inr ⟨l, rfl, hc⟩
        · intro _
          trivial
      · rw [set_value_near mn mx v0 l v hc]
        simp only [Prod.snd]
        constructor
        · intro h
          exact absurd h (by simp)
        · rintro (h | ⟨l2, hl2, hc2⟩)
          · exact absurd h (by simp)
          · rw [Option.some.injEq] at hl2
            exact absurd (hl2 ▸ hc2) hc
  · cases ld with
    | none =>
      rw [set_value_unset]
      intro h
      exact absurd h (by simp)
    | some l =>
      by_cases hc : 1/2 < |clampValue mn mx v - l|
      · rw [set_value_far mn mx v0 l v hc]
        intro h
        exact absurd h (by simp)
      · rw [set_value_near mn mx v0 l v hc]
        intro _
        rfl
  · cases ld with
    | none =>
      rw [set_value_unset]
      rw [set_value_near]
      simp
    | some l =>
      by_cases hc : 1/2 < |clampValue mn mx v - l|
      · rw [set_value_far mn mx v0 l v hc]
        rw [set_value_near]
        simp
      · rw [set_value_near mn mx v0 l v hc]
        rw [set_value_near mn mx v0 l v hc]
  · norm_num [set_value, clampValue, abs_of_nonneg]
  · norm_num [set_value, clampValue, abs_of_nonneg]

/-- Witness for C2 at the concrete gauge (0, 100) with last drawn value 50. -/
theorem set_value_redraw_policy_witness :
    (set_value ⟨0, 100, 50, some 50⟩ (503/10)).2 = false ∧
    (set_value ⟨0, 100, 50, some 50⟩ (506/10)).2 = true :=
  ⟨(set_value_redraw_policy ⟨0, 100, 50, some 50⟩ 0).2.2.2.1,
    (set_value_redraw_policy ⟨0, 100, 50, some 50⟩ 0).2.2.2.2⟩

/-- C3: in Live mode, when the command table maps a metric and the query on
its command fails (no connection, the query raises, or the response is
null), the per-tick read returns exactly that metric and its fixed default;
the default table is speed 0, rpm 0, throttle 0, engine load 0, timing
advance 0, coolant 80, intake 25, oil 90, fuel pressure 300, fuel rate 5,
maf 10, max maf 255, run time 0, distance since clear 0, time since
clear 0. -/
theorem live_read_failure_defaults (m : Metric)
    (commands : String → Option String) (conn : Conn) (c : String)
    (hmap : commands (metricCmdName m) = some c)
    (hfail : conn = none ∨
      ∃ q, conn = some q ∧ (q c = .raises ∨ q c = .respNull)) :
    liveMetricRead commands conn m = some (metricDefault m) ∧
    metricDefault .speed = 0 ∧ metricDefault .rpm = 0 ∧
    metricDefault .throttle = 0 ∧ metricDefault .engLoad = 0 ∧
    metricDefault .timingAdvance = 0 ∧ metricDefault .coolantTemp = 80 ∧
    metricDefault .intakeTemp = 25 ∧ metricDefault .oilTemp = 90 ∧
    metricDefault .fuelPressure = 300 ∧ metricDefault .fuelRate = 5 ∧
    metricDefault .maf = 10 ∧ metricDefault .maxMaf = 255 ∧
    metricDefault .runTime = 0 ∧ metricDefault .distSinceClear = 0 ∧
    metricDefault .timeSinceClear = 0 := by
  have hnone : read_obd_data conn c = none := by
    rcases hfail with h | ⟨q, hq, hb⟩
    · rw [h]; rfl
    · subst hq
      rcases hb with hb | hb <;> simp [read_obd_data, hb]
  refine ⟨?_, rfl, rfl, rfl, rfl, rfl, rfl, rfl, rfl, rfl, rfl, rfl, rfl, rfl,
    rfl, rfl⟩
  simp [liveMetricRead, readValue, hmap, hnone]

/-- Witness for C3 at the coolant metric with no connection: the read
yields the default 80. -/
theorem live_read_failure_defaults_witness :
    cmdsAll (metricCmdName .coolantTemp) = some "coolant_temp" ∧
    liveMetricRead cmdsAll none .coolantTemp = some 80 :=
  ⟨rfl, (live_read_failure_defaults .coolantTemp cmdsAll none "coolant_temp"
    rfl (Or.inl rfl)).1⟩

/-- C4 counterexample: a Live-mode tick whose queried distance value is the
strictly positive 5 overwrites the stored distance 12 with 5, so the
accumulator strictly decreases on a tick with no clear action — the claim
that accumulators only ever increase outside clear actions is false. -/
theorem acc_increase_counterexample :
    (tickAccLive ⟨5000, 12, 100⟩ 0 5 0).dist_dtc = 5 ∧ (5:ℚ) < 12 := by
  constructor
  · norm_num [tickAccLive, updateDistDtcLive]
  · norm_num

/-- C4 amended: every Simulated tick strictly increases all three
accumulators; in Live mode a zero or negative (failed-read-defaulted) value
preserves each accumulator unchanged and a strictly positive queried
run-time overwrites runtime; the clear action resets dist_dtc and time_dtc
to 0 and never changes runtime. (A strictly positive Live read overwrites
the accumulator even when smaller, so Live accumulators are not monotone.) -/
theorem acc_update_rules (a : Accumulators) (du rt d t : ℚ)
    (hdu : 1/100 ≤ du) :
    a.runtime < (tickAccSim a du).runtime ∧
    a.dist_dtc < (tickAccSim a du).dist_dtc ∧
    a.time_dtc < (tickAccSim a du).time_dtc ∧
    (rt ≤ 0 → (tickAccLive a rt d t).runtime = a.runtime) ∧
    (0 < rt → (tickAccLive a rt d t).runtime = rt) ∧
    (d ≤ 0 → (tickAccLive a rt d t).dist_dtc = a.dist_dtc) ∧
    (t ≤ 0 → (tickAccLive a rt d t).time_dtc = a.time_dtc) ∧
    ∀ us : Bool, ∀ cmds : String → Option String, ∀ conn : Conn,
      (clear_dtc true us cmds conn a).runtime = a.runtime ∧
      (clear_dtc true us cmds conn a).dist_dtc = 0 ∧
      (clear_dtc true us cmds conn a).time_dtc = 0 := by
  refine ⟨?_, ?_, ?_, ?_, ?_, ?_, ?_, ?_⟩
  · simp only [tickAccSim]
    linarith
  · simp only [tickAccSim]
    linarith
  · simp only [tickAccSim]
    linarith
  · intro h
    simp only [tickAccLive, updateRuntimeLive]
    rw [if_neg (not_lt.mpr h)]
  · intro h
    simp only [tickAccLive, updateRuntimeLive]
    rw [if_pos h]
  · intro h
    simp only [tickAccLive, updateDistDtcLive]
    rw [if_neg (fun hc => absurd hc.2 (not_lt.mpr h))]
  · intro h
    simp only [tickAccLive, updateTimeDtcLive]
    rw [if_neg (fun hc => absurd hc.2 (not_lt.mpr h))]
  · intro us cmds conn
    cases us with
    | true => exact ⟨rfl, rfl, rfl⟩
    | false =>
      unfold clear_dtc
      cases hc : cmds "clear_dtc" with
      | none => simp [hc]
      | some c => simp [hc]

/-- Witness for C4 amended at the zero accumulators and the minimal
simulated distance increment. -/
theorem acc_update_rules_witness :
    (1:ℚ)/100 ≤ 1/100 ∧
    (0:ℚ) < (tickAccSim ⟨0, 0, 0⟩ (1/100)).runtime :=
  ⟨le_refl _, (acc_update_rules ⟨0, 0, 0⟩ (1/100) 0 0 0 (le_refl _)).1⟩

/-- C5: invoking the confirmed clear action on the state with runtime 5000,
dist_dtc 42.3 and time_dtc 7200 yields dist_dtc 0 and time_dtc 0 with
runtime 5000 unchanged, in both modes and for every outcome of the external
clear query (including a missing command entry, a raised exception and a
null response). -/
theorem clear_dtc_resets_counters (use_sim : Bool)
    (commands : String → Option String) (conn : Conn) :
    clear_dtc true use_sim commands conn ⟨5000, 423/10, 7200⟩ = ⟨5000, 0, 0⟩ := by
  cases use_sim with
  | true => rfl
  | false =>
    unfold clear_dtc
    cases hc : commands "clear_dtc" with
    | none => simp [hc]
    | some c => simp [hc]

/-- Witness for C5 in Live mode with a query that raises. -/
theorem clear_dtc_resets_counters_witness :
    clear_dtc true false cmdsAll (some fun _ => .raises) ⟨5000, 423/10, 7200⟩ =
      ⟨5000, 0, 0⟩ :=
  clear_dtc_resets_counters false cmdsAll (some fun _ => .raises)

/-- C6: folding the Live-mode distance update over the queried values
12, 0, -1, 15 from the initial distance 0 yields the stored values
12, 12, 12, 15 after the four ticks; moreover a successful query returning
the negative value -1 flows through the read helper unchanged (it is not a
defaulted failure) and is then discarded by the positivity guard. -/
theorem dist_dtc_sequence :
    (List.scanl updateDistDtcLive 0 [12, 0, -1, 15]).tail = [12, 12, 12, 15] ∧
    readValue false cmdsAll (some fun _ => .respValue (-1))
      "dist_since_dtc_cleared" 0 = some (-1) ∧
    updateDistDtcLive 12 (-1) = 12 := by
  refine ⟨by decide, rfl, by decide⟩

/-- C7 counterexample: for the gauge spec min 0, max 7 (min < max), tick 1
has raw label value 7/8; the code displays int(7/8) = 0 while rounding to
the nearest integer gives 1, so the labels are not nearest-rounded. -/
theorem tick_label_rounding_counterexample :
    (drawMarks 0 7).map Prod.snd = [0, 0, 1, 2, 3, 4, 5, 6, 7] ∧
    round (tickLabelValue 0 7 1) = 1 ∧
    pyInt (tickLabelValue 0 7 1) ≠ round (tickLabelValue 0 7 1) := by
  refine ⟨?_, ?_, ?_⟩
  · norm_num [drawMarks, List.range_succ, tickLabelValue, pyInt]
  · norm_num [tickLabelValue, round_eq]
  · norm_num [tickLabelValue, round_eq, pyInt]

/-- C7 amended: for every gauge spec with min < max, tick i (i in 0..8) is
placed at 225 - 270 * i / 8 degrees and labeled with min + (max - min) * i / 8
truncated toward zero by int() for display; the spec min 0, max 8000 shows
labels 0, 1000, ..., 8000 at indices 0..8. -/
theorem tick_marks_layout (mn mx : ℚ) (h : mn < mx) (i : ℕ) (hi : i < 9) :
    (drawMarks mn mx)[i]? =
      some (225 - 270 * (i:ℚ) / 8, pyInt (mn + (mx - mn) * i / 8)) ∧
    (drawMarks 0 8000).map Prod.snd =
      [0, 1000, 2000, 3000, 4000, 5000, 6000, 7000, 8000] := by
  constructor
  · interval_cases i <;>
      norm_num [drawMarks, List.range_succ, tickAngleDeg, tickLabelValue]
  · norm_num [drawMarks, List.range_succ, tickLabelValue, pyInt]

/-- Witness for C7 amended at the rpm spec (0, 8000) and tick 4. -/
theorem tick_marks_layout_witness :
    (0:ℚ) < 8000 ∧ (4:ℕ) < 9 ∧
    (drawMarks 0 8000).map Prod.snd =
      [0, 1000, 2000, 3000, 4000, 5000, 6000, 7000, 8000] :=
  ⟨by norm_num, by norm_num,
    (tick_marks_layout 0 8000 (by norm_num) 4 (by norm_num)).2⟩

/-- C8: for every gauge spec with min < max, the active sweep is exactly 0
at the minimum value and exactly -270 (the full clockwise sweep) at the
maximum value. -/
theorem active_sweep_endpoints (mn mx : ℚ) (h : mn < mx) :
    activeSweepDeg mn mx mn = 0 ∧ activeSweepDeg mn mx mx = -270 := by
  have hne : mx - mn ≠ 0 := sub_ne_zero.mpr h.ne'
  constructor
  · simp [activeSweepDeg, drawRatio]
  · simp only [activeSweepDeg, drawRatio]
    field_simp

/-- Witness for C8 at the throttle spec (0, 100). -/
theorem active_sweep_endpoints_witness :
    (0:ℚ) < 100 ∧ activeSweepDeg 0 100 0 = 0 ∧ activeSweepDeg 0 100 100 = -270 :=
  ⟨by norm_num, active_sweep_endpoints 0 100 (by norm_num)⟩

/-- C9: the MAF progress-bar fraction equals maf / max_maf exactly when
max_maf is strictly positive (and then multiplying back by max_maf recovers
maf, so the division is by a nonzero number) and equals 0 for every
non-positive max_maf, including 0. -/
theorem maf_fraction_guard (maf mmaf : ℚ) :
    (0 < mmaf → mafBarFraction maf mmaf = maf / mmaf ∧
      mafBarFraction maf mmaf * mmaf = maf) ∧
    (mmaf ≤ 0 → mafBarFraction maf mmaf = 0) ∧
    mafBarFraction maf 0 = 0 := by
  refine ⟨?_, ?_, ?_⟩
  · intro h
    rw [mafBarFraction, if_pos h]
    exact ⟨rfl, div_mul_cancel₀ maf h.ne'⟩
  · intro h
    rw [mafBarFraction, if_neg (not_lt.mpr h)]
  · rw [mafBarFraction, if_neg (lt_irrefl 0)]

/-- Witness for C9 at maf 10 with the defaulted max_maf 255 and with a
zero max_maf. -/
theorem maf_fraction_guard_witness :
    (0:ℚ) < 255 ∧ mafBarFraction 10 255 = 10 / 255 ∧ mafBarFraction 10 0 = 0 :=
  ⟨by norm_num, ((maf_fraction_guard 10 255).1 (by norm_num)).1,
    (maf_fraction_guard 10 0).2.2⟩

/-- C10: the module-level read helper is a total function of the connection
state and the query outcome: it returns none when no connection is
established, when the query raises and when the response is null, and
returns the response value otherwise; being a total Lean function it
propagates no failure. -/
theorem read_obd_data_total (conn : Conn) (c : String) :
    (conn = none → read_obd_data conn c = none) ∧
    (∀ q, conn = some q → q c = .raises → read_obd_data conn c = none) ∧
    (∀ q, conn = some q → q c = .respNull → read_obd_data conn c = none) ∧
    (∀ q v, conn = some q → q c = .respValue v → read_obd_data conn c = some v) := by
  refine ⟨?_, ?_, ?_, ?_⟩
  · intro h; rw [h]; rfl
  · intro q hq hb
    subst hq
    simp [read_obd_data, hb]
  · intro q hq hb
    subst hq
    simp [read_obd_data, hb]
  · intro q v hq hb
    subst hq
    simp [read_obd_data, hb]

/-- Witness for C10 with no connection and with a raising query. -/
theorem read_obd_data_total_witness :
    read_obd_data none "speed" = none ∧
    read_obd_data (some fun _ => .raises) "speed" = none :=
  ⟨(read_obd_data_total none "speed").1 rfl,
    (read_obd_data_total (some fun _ => .raises) "speed").2.1 _ rfl rfl⟩

end OBDDash
